import Mathlib

/-!
Verification of the email-attachments downloader (src/app/mails.py).

The development shallowly embeds the three routines of the module —
`_get_credentials`, `fetch_messages` and `download_attachments` — as pure
Lean functions.  Python strings are modelled as their character sequences
(`List Char`), with the string methods the module uses (`lower`, `strip`,
`split`, `endswith`, `in`) re-implemented by structural recursion so that
every definition evaluates inside the kernel.  File contents are lists of
lines, the filesystem is an explicit structure threaded through the
attachment saver, and Python exceptions become `Except` errors.  Python's
local-variable semantics for the credential parser's `key` variable
(assigned only inside the `if`/`elif` chain, read unconditionally
afterwards) are modelled by threading an `Option PyStr` key through the
scan: reading it while it is still `none` is the `NameError` Python would
raise there.
-/

namespace Mails

/-- A Python string, as its sequence of characters. -/
abbrev PyStr := List Char

/-- Coerce a Lean string literal into the model. -/
def str (s : String) : PyStr := s.data

/-- Python `str.lower()` (ASCII case folding suffices for the data here). -/
def lower (s : PyStr) : PyStr := s.map Char.toLower

/-- Whitespace test used by `strip`. -/
def wsChar (c : Char) : Bool := c.isWhitespace

/-- Python `str.strip()`: drop leading and trailing whitespace. -/
def strip (s : PyStr) : PyStr :=
  ((s.dropWhile wsChar).reverse.dropWhile wsChar).reverse

/-- Python `str.split(sep)` for a one-character separator: every occurrence
of `sep` separates two (possibly empty) fields, so the result always has
one more field than there are separators. -/
def splitOn (sep : Char) : PyStr → List PyStr
  | [] => [([])]
  | c :: rest =>
    match splitOn sep rest with
    | [] => [([c])]
    | field :: fields =>
      if c = sep then ([]) :: field :: fields
      else (c :: field) :: fields

/-- Python `str.endswith(suff)`. -/
def endswith (s suff : PyStr) : Bool :=
  (s.drop (s.length - suff.length)) == suff

/-- Python `sub in s` for a one-character `sub`. -/
def containsChar (s : PyStr) (c : Char) : Bool := s.contains c

/-- `os.path.join`, with `/` as separator. -/
def joinPath (dir name : PyStr) : PyStr := dir ++ (str "/") ++ name

/-- `exchangelib.Identity(primary_smtp_address = acc_name)`. -/
structure Identity where
  primary_smtp_address : PyStr
deriving DecidableEq

/-- `exchangelib.OAuth2Credentials(client_id, client_secret, tenant_id, identity)`. -/
structure OAuth2Credentials where
  client_id : PyStr
  client_secret : PyStr
  tenant_id : PyStr
  identity : Identity
deriving DecidableEq

/-- Errors the credential loader can raise: `FileNotFoundError` when the
secrets file is absent, Python's `NameError` for a read of the unassigned
local `key`, and the `ValueError("Parameter '...' not found!")` raised for
a required parameter still unset after the scan (the spec's
`MissingParameter(field)`). -/
inductive CredError where
  | fileNotFound (path : PyStr)
  | nameError (var : PyStr)
  | missingParameter (param : PyStr)
deriving DecidableEq

/-- The mutable `params` dict of `_get_credentials`, with one optional slot
per recognized label plus the identity set up front. -/
structure Params where
  client_id : Option PyStr
  client_secret : Option PyStr
  tenant_id : Option PyStr
  identity : Identity
deriving DecidableEq

/-- `tokens[0].strip()` for `tokens = line.split(":")`. -/
def lineLabel (line : PyStr) : PyStr :=
  strip ((splitOn (':') line).headD ([]))

/-- `tokens[1].strip()` for `tokens = line.split(":")`; the index is in
range whenever the line contains a colon. -/
def lineValue (line : PyStr) : PyStr :=
  strip (((splitOn (':') line)[1]?).getD ([]))

/-- The `if`/`elif` chain choosing `key`; with no `else` branch, an
unrecognized label leaves `key` at whatever it was bound to before. -/
def updateKey (param_name : PyStr) (key : Option PyStr) : Option PyStr :=
  if param_name = str "Client ID" then some (str "client_id")
  else if param_name = str "Client Secret" then some (str "client_secret")
  else if param_name = str "Tenant ID" then some (str "tenant_id")
  else key

/-- `params[key] = param_value` for the keys `updateKey` can produce. -/
def setParam (params : Params) (key : PyStr) (value : PyStr) : Params :=
  if key = str "client_id" then { params with client_id := some value }
  else if key = str "client_secret" then { params with client_secret := some value }
  else if key = str "tenant_id" then { params with tenant_id := some value }
  else params

/-- One iteration of the `for line in lines` loop of `_get_credentials`:
skip lines without a colon, split on colons, update `key`, then execute
`params[key] = param_value` — a `NameError` if `key` was never assigned. -/
def processLine (params : Params) (key : Option PyStr) (line : PyStr) :
    Except CredError (Params × Option PyStr) :=
  if ¬ containsChar line (':') then .ok (params, key)
  else
    let param_name := lineLabel line
    let param_value := lineValue line
    let key' := updateKey param_name key
    match key' with
    | none => .error (.nameError (str "key"))
    | some k => .ok (setParam params k param_value, key')

/-- The whole `for line in lines` loop. -/
def scanLoop (params : Params) (key : Option PyStr) :
    List PyStr → Except CredError Params
  | [] => .ok params
  | line :: rest =>
    match processLine params key line with
    | .error e => .error e
    | .ok (params', key') => scanLoop params' key' rest

/-- The three `if params[...] is None: raise ValueError(...)` checks, in
source order, followed by construction of the credentials object. -/
def checkParams (params : Params) : Except CredError OAuth2Credentials :=
  match params.client_id with
  | none => .error (.missingParameter (str "client_id"))
  | some cid =>
    match params.client_secret with
    | none => .error (.missingParameter (str "client_secret"))
    | some csec =>
      match params.tenant_id with
      | none => .error (.missingParameter (str "tenant_id"))
      | some tid => .ok ⟨cid, csec, tid, params.identity⟩

/-- `join(join(os.environ["APPDATA"], "bia"), f"{acc_name.lower()}.token.email.dat")`. -/
def cred_path (appdata : PyStr) (acc_name : PyStr) : PyStr :=
  joinPath (joinPath appdata (str "bia")) (lower acc_name ++ str ".token.email.dat")

/-- `_get_credentials`, over an explicit map from paths to file lines
standing for the readable files (`isfile` = the path has an entry). -/
def _get_credentials (appdata : PyStr) (acc_name : PyStr)
    (fsys : List (PyStr × List PyStr)) : Except CredError OAuth2Credentials :=
  match fsys.lookup (cred_path appdata acc_name) with
  | none => .error (.fileNotFound (cred_path appdata acc_name))
  | some lines =>
    match scanLoop ⟨none, none, none, ⟨acc_name⟩⟩ none lines with
    | .error e => .error e
    | .ok params => checkParams params

/-- A message attachment: a name and its raw bytes (`att.name`, `att.content`). -/
structure Attachment where
  name : PyStr
  content : List Nat
deriving DecidableEq

/-- The projection of an `exchangelib.Message` the module works with:
`subject`, `sender`, `message_id`, `attachments` (the `.only(...)` fields)
plus the `datetime_received` instant the date filter ranges over. -/
structure Message where
  subject : PyStr
  sender : PyStr
  message_id : PyStr
  attachments : List Attachment
  datetime_received : Int
deriving DecidableEq

/-- The local filesystem the attachment saver touches: existing directory
paths plus an association of file paths to contents.  `writeFile` shadows
any earlier entry, so `lookup` always sees the latest write. -/
structure FileSystem where
  dirs : List PyStr
  files : List (PyStr × List Nat)
deriving DecidableEq

/-- `os.path.isfile(path)`. -/
def isfile (path : PyStr) (fs : FileSystem) : Bool :=
  (fs.files.lookup path).isSome

/-- `os.path.exists(path)`. -/
def pathExists (path : PyStr) (fs : FileSystem) : Bool :=
  fs.dirs.contains path || isfile path fs

/-- `open(path, 'wb'); stream.write(content)`: create or truncate. -/
def writeFile (path : PyStr) (content : List Nat) (fs : FileSystem) : FileSystem :=
  { fs with files := (path, content) :: fs.files }

/-- Errors `download_attachments` can raise: `FolderNotFoundError` for a
missing destination folder and `FileNotFoundError` when the post-write
existence re-check fails. -/
inductive SaveError where
  | folderNotFound (dir : PyStr)
  | fileNotFoundAfterWrite (path : PyStr)
deriving DecidableEq

/-- The filter guard `ext is None or file_path.lower().endswith(ext)`:
note that `file_path` is lower-cased but `ext` is compared verbatim. -/
def extFilterPasses (ext : Option PyStr) (file_path : PyStr) : Bool :=
  match ext with
  | none => true
  | some e => endswith (lower file_path) e

/-- One iteration of the `for att in msg.attachments` loop of
`download_attachments`: skip on extension mismatch, skip an existing file
unless `overwrite`, else write the bytes, re-check existence and append
the path.  An error carries the filesystem as it stood when it was
raised. -/
def saveOne (dst_folder : PyStr) (ext : Option PyStr) (overwrite : Bool)
    (file_paths : List PyStr) (fs : FileSystem) (att : Attachment) :
    Except (SaveError × FileSystem) (List PyStr × FileSystem) :=
  let file_path := joinPath dst_folder att.name
  if ¬ extFilterPasses ext file_path then .ok (file_paths, fs)
  else if isfile file_path fs ∧ ¬ overwrite then .ok (file_paths, fs)
  else
    let fs' := writeFile file_path att.content fs
    if ¬ isfile file_path fs' then .error (.fileNotFoundAfterWrite file_path, fs')
    else .ok (file_paths ++ [file_path], fs')

/-- The whole `for att in msg.attachments` loop. -/
def saveLoop (dst_folder : PyStr) (ext : Option PyStr) (overwrite : Bool)
    (file_paths : List PyStr) (fs : FileSystem) :
    List Attachment → Except (SaveError × FileSystem) (List PyStr × FileSystem)
  | [] => .ok (file_paths, fs)
  | att :: rest =>
    match saveOne dst_folder ext overwrite file_paths fs att with
    | .error e => .error e
    | .ok (file_paths', fs') => saveLoop dst_folder ext overwrite file_paths' fs' rest

/-- `download_attachments(msg, dst_folder, ext, overwrite)`, threading the
filesystem explicitly and returning the written paths. -/
def download_attachments (msg : Message) (dst_folder : PyStr) (ext : Option PyStr)
    (overwrite : Bool) (fs : FileSystem) :
    Except (SaveError × FileSystem) (List PyStr × FileSystem) :=
  if ¬ pathExists dst_folder fs then .error (.folderNotFound dst_folder, fs)
  else saveLoop dst_folder ext overwrite ([]) fs msg.attachments

/-- An `exchangelib.EWSDateTime`: a time instant together with the zone it
is rendered in; `astimezone` changes the zone, never the instant. -/
structure EWSDateTime where
  instant : Int
  zone : Int
deriving DecidableEq

/-- `EWSDateTime.from_datetime(d)`: a naive datetime, zone 0. -/
def EWSDateTime.from_datetime (d : Int) : EWSDateTime := ⟨d, 0⟩

/-- `.astimezone(tz)`. -/
def EWSDateTime.astimezone (d : EWSDateTime) (tz : Int) : EWSDateTime :=
  ⟨d.instant, tz⟩

/-- The parts of an `exchangelib.Account` `fetch_messages` reads: the
reporting timezone and the message listings of `inbox.all()` and
`inbox.walk()`. -/
structure Account where
  default_timezone : Int
  inbox_all : List Message
  inbox_walk : List Message
deriving DecidableEq

/-- The only failure `fetch_messages` itself produces: the `NameError`
(`UnboundLocalError`) for reading `start` when `from_date` was `None`. -/
inductive FetchError where
  | nameErrorStart
deriving DecidableEq

/-- Modelled from the spec: the external mail library's filter
`folders.filter(datetime_received__range = (start, end), sender = email_from)`
is not code of this repository; the spec (§4.2) gives the window as
`received_at ∈ [start, end) AND sender == sender_address`, compared on the
instants carried by the zone-converted bounds. -/
def filterMessages (msgs : List Message) (start finish : EWSDateTime)
    (sender : PyStr) : List Message :=
  msgs.filter (fun m =>
    (start.instant ≤ m.datetime_received) && (m.datetime_received < finish.instant)
      && (m.sender == sender))

/-- `fetch_messages(acc, email_from, from_date, search_subfolders)`.  The
bounds `start`/`end` exist only when `from_date is not None`; the
unconditional use of `start` in the filter is the `NameError` branch.
`now` is the instant `datetime.now()` returns during the call. -/
def fetch_messages (acc : Account) (email_from : PyStr) (from_date : Option Int)
    (now : Int) (search_subfolders : Bool) : Except FetchError (List Message) :=
  let bounds : Option (EWSDateTime × EWSDateTime) :=
    match from_date with
    | some d =>
      some ((EWSDateTime.from_datetime d).astimezone acc.default_timezone,
            (EWSDateTime.from_datetime now).astimezone acc.default_timezone)
    | none => none
  let folders := if search_subfolders then acc.inbox_walk else acc.inbox_all
  match bounds with
  | none => .error FetchError.nameErrorStart
  | some (start, finish) => .ok (filterMessages folders start finish email_from)

end Mails

deriving instance DecidableEq for Except

namespace Mails

/-- Claim C1: the extension comparison lower-cases only the candidate
path, never the `ext` argument, so the match is not case-insensitive in
the extension argument — contradicting the routine's own docstring ("The
parameter is case insensitive.").  With `ext = ".pdf"` the example message
with attachments `a.PDF`, `b.docx`, `c.pdf` yields `a.PDF` and `c.pdf` in
their original order, but with the same extension spelled `.PDF` the very
same message yields nothing at all. -/
theorem c1_ext_argument_case_sensitive :
    download_attachments ⟨(str "s"), (str "x"), (str "m"),
        [⟨(str "a.PDF"), [1]⟩, ⟨(str "b.docx"), [2]⟩, ⟨(str "c.pdf"), [3]⟩], 0⟩
      (str "dst") (some (str ".pdf")) false ⟨[(str "dst")], []⟩ =
      .ok ([(str "dst/a.PDF"), (str "dst/c.pdf")],
        ⟨[(str "dst")], [((str "dst/c.pdf"), [3]), ((str "dst/a.PDF"), [1])]⟩) ∧
    download_attachments ⟨(str "s"), (str "x"), (str "m"),
        [⟨(str "a.PDF"), [1]⟩, ⟨(str "b.docx"), [2]⟩, ⟨(str "c.pdf"), [3]⟩], 0⟩
      (str "dst") (some (str ".PDF")) false ⟨[(str "dst")], []⟩ =
      .ok ([], ⟨[(str "dst")], []⟩) := by decide

/-- Claim C2: an unrecognized label is not silently ignored.  Because the
`key` local keeps its binding from the previous recognized line, the line
`Foo: bar` overwrites the already-loaded `client_id` with `bar`; and when
the first colon line of the file bears an unrecognized label, the loader
reads `key` before any assignment — a `NameError`, not a missing-field
error. -/
theorem c2_unrecognized_label_not_ignored :
    _get_credentials (str "APP") (str "acc")
      [((cred_path (str "APP") (str "acc")),
        [(str "Client ID: abc"), (str "Foo: bar"),
         (str "Client Secret: s"), (str "Tenant ID: t")])] =
      .ok ⟨(str "bar"), (str "s"), (str "t"), ⟨(str "acc")⟩⟩ ∧
    scanLoop ⟨none, none, none, ⟨(str "acc")⟩⟩ none [(str "Foo: bar")] =
      .error (.nameError (str "key")) := by decide

/-- Claim C3, counterexample: `line.split(":")` splits on every colon, not
only the first, so the value of `Client Secret: abc:def` is loaded as
`abc` — not `abc:def`, the whole trimmed text after the first colon that
the claim promises. -/
theorem c3_counterexample :
    _get_credentials (str "APP") (str "acc")
      [((cred_path (str "APP") (str "acc")),
        [(str "Client ID: id"), (str "Client Secret: abc:def"),
         (str "Tenant ID: t")])] =
      .ok ⟨(str "id"), (str "abc"), (str "t"), ⟨(str "acc")⟩⟩ ∧
    strip (str " abc:def") = str "abc:def" ∧
    (str "abc") ≠ (str "abc:def") := by decide

/-- Claim C4, counterexample: the post-scan checks test `is None`, not
emptiness, so a file whose `Client ID:` line carries an empty value is
accepted and the loader returns a record whose `client_id` is the empty
string — it does not fail. -/
theorem c4_counterexample :
    _get_credentials (str "APP") (str "acc")
      [((cred_path (str "APP") (str "acc")),
        [(str "Client ID:"), (str "Client Secret: s"), (str "Tenant ID: t")])] =
      .ok ⟨([]), (str "s"), (str "t"), ⟨(str "acc")⟩⟩ := by decide

/-- Claim C8: calling the attachment saver with a destination directory
that does not exist fails with `FolderNotFoundError` (the spec's
`DestinationNotFound`) before any attachment is processed — for every
message, including ones with a non-empty attachment list — and the
filesystem carried out of the failure is exactly the input one. -/
theorem c8_fail_fast_missing_destination (msg : Message) (dst_folder : PyStr)
    (ext : Option PyStr) (overwrite : Bool) (fs : FileSystem)
    (h : pathExists dst_folder fs = false) :
    download_attachments msg dst_folder ext overwrite fs =
      .error (.folderNotFound dst_folder, fs) := by
  simp [download_attachments, h]

/-- Concrete instantiation of `c8_fail_fast_missing_destination`: a
missing `nodir` destination, a one-attachment message, an untouched
filesystem. -/
theorem c8_fail_fast_missing_destination_witness :
    pathExists (str "nodir") ⟨[(str "other")], [((str "f.txt"), [7])]⟩ = false ∧
    download_attachments ⟨(str "s"), (str "x"), (str "m"), [⟨(str "a.pdf"), [1]⟩], 0⟩
        (str "nodir") none false ⟨[(str "other")], [((str "f.txt"), [7])]⟩ =
      .error (.folderNotFound (str "nodir"), ⟨[(str "other")], [((str "f.txt"), [7])]⟩) :=
  ⟨by decide, c8_fail_fast_missing_destination _ _ _ _ _ (by decide)⟩

/-- Claim C5: with `from_date = None` the message finder does not return a
message sequence — the range bound `start` is read without ever having
been assigned, Python's `NameError` — while with a start date the filter
receives the window `[start_date, now-at-call-time)`, both bounds carried
in the mailbox's `default_timezone`; membership in the filtered listing is
exactly date-in-window and sender equality. -/
theorem c5_fetch_messages_start (acc : Account) (email_from : PyStr)
    (now d : Int) (search_subfolders : Bool) (m : Message) :
    fetch_messages acc email_from none now search_subfolders =
      .error FetchError.nameErrorStart ∧
    fetch_messages acc email_from (some d) now search_subfolders =
      .ok (filterMessages
        (if search_subfolders then acc.inbox_walk else acc.inbox_all)
        ⟨d, acc.default_timezone⟩ ⟨now, acc.default_timezone⟩ email_from) ∧
    (m ∈ filterMessages
        (if search_subfolders then acc.inbox_walk else acc.inbox_all)
        ⟨d, acc.default_timezone⟩ ⟨now, acc.default_timezone⟩ email_from ↔
      m ∈ (if search_subfolders then acc.inbox_walk else acc.inbox_all) ∧
        d ≤ m.datetime_received ∧ m.datetime_received < now ∧
        m.sender = email_from) := by
  refine ⟨rfl, rfl, ?_⟩
  simp [filterMessages, List.mem_filter, and_assoc]

/-- Heads and second entries agree once the two-element truncations do. -/
theorem take_two_eq_head_get (xs ys : List PyStr)
    (h : xs.take 2 = ys.take 2) :
    xs.head? = ys.head? ∧ xs[1]? = ys[1]? := by
  match xs, ys with
  | [], [] => exact ⟨rfl, rfl⟩
  | [], _ :: _ => simp [List.take] at h
  | _ :: _, [] => simp [List.take] at h
  | [a], [b] =>
    simp [List.take] at h
    simp [h]
  | [a], _ :: _ :: _ => simp [List.take] at h
  | _ :: _ :: _, [b] => simp [List.take] at h
  | a :: b :: xs, c :: d :: ys =>
    simp [List.take] at h
    simp [h.1, h.2]

/-- Claim C3 (amended): each line is split on every colon; the label is
the first colon-separated field and the value the second, both trimmed,
and everything after a second colon is dropped — so two colon lines whose
first two fields agree are processed identically, whatever follows their
second colon — while lines containing no colon are skipped without
error. -/
theorem c3_split_on_every_colon (params : Params) (key : Option PyStr)
    (l0 l1 l2 : PyStr)
    (h0 : containsChar l0 (':') = false)
    (h1 : containsChar l1 (':') = true)
    (h2 : containsChar l2 (':') = true)
    (hl : (splitOn (':') l1).take 2 = (splitOn (':') l2).take 2) :
    processLine params key l0 = .ok (params, key) ∧
    processLine params key l1 = processLine params key l2 := by
  obtain ⟨hh, hg⟩ := take_two_eq_head_get _ _ hl
  constructor
  · simp [processLine, h0]
  · simp [processLine, h1, h2, lineLabel, lineValue, hh, hg]

/-- Concrete instantiation of `c3_split_on_every_colon`: the two lines
`Client Secret: abc:def` and `Client Secret: abc:xyz` differ only after
their second colon and are parsed identically; a blank line is skipped. -/
theorem c3_split_on_every_colon_witness :
    containsChar (str "no colon here") (':') = false ∧
    (splitOn (':') (str "Client Secret: abc:def")).take 2 =
      (splitOn (':') (str "Client Secret: abc:xyz")).take 2 ∧
    processLine ⟨none, none, none, ⟨(str "acc")⟩⟩ none (str "no colon here") =
      .ok (⟨none, none, none, ⟨(str "acc")⟩⟩, none) ∧
    processLine ⟨none, none, none, ⟨(str "acc")⟩⟩ none (str "Client Secret: abc:def") =
      processLine ⟨none, none, none, ⟨(str "acc")⟩⟩ none (str "Client Secret: abc:xyz") :=
  ⟨by decide, by decide,
    (c3_split_on_every_colon ⟨none, none, none, ⟨(str "acc")⟩⟩ none
      (str "no colon here") (str "Client Secret: abc:def")
      (str "Client Secret: abc:xyz")
      (by decide) (by decide) (by decide) (by decide)).1,
    (c3_split_on_every_colon ⟨none, none, none, ⟨(str "acc")⟩⟩ none
      (str "no colon here") (str "Client Secret: abc:def")
      (str "Client Secret: abc:xyz")
      (by decide) (by decide) (by decide) (by decide)).2⟩

/-- Claim C4 (amended): the post-scan validation checks only that each of
the three fields was assigned at all (`is None`), not that it is
non-empty: whenever all three are assigned — to any values, empty strings
included — the check succeeds and the returned record carries exactly the
stored values with the identity untouched. -/
theorem c4_none_checked_not_emptiness (params : Params) (cid csec tid : PyStr)
    (h1 : params.client_id = some cid) (h2 : params.client_secret = some csec)
    (h3 : params.tenant_id = some tid) :
    checkParams params = .ok ⟨cid, csec, tid, params.identity⟩ := by
  simp [checkParams, h1, h2, h3]

/-- Concrete instantiation of `c4_none_checked_not_emptiness`: an assigned
but empty `client_id` passes the checks and comes back as the empty
string. -/
theorem c4_none_checked_not_emptiness_witness :
    (⟨some ([]), some (str "s"), some (str "t"), ⟨(str "a")⟩⟩ : Params).client_id =
      some ([]) ∧
    checkParams ⟨some ([]), some (str "s"), some (str "t"), ⟨(str "a")⟩⟩ =
      .ok ⟨([]), (str "s"), (str "t"), ⟨(str "a")⟩⟩ :=
  ⟨rfl, c4_none_checked_not_emptiness _ _ _ _ rfl rfl rfl⟩

/-- Statement-side: the first required field unset after the scan, in the
fixed check order of the source. -/
def firstMissing (params : Params) : PyStr :=
  if params.client_id = none then str "client_id"
  else if params.client_secret = none then str "client_secret"
  else str "tenant_id"

/-- Claim C6: when the credentials file exists and the scan completes but
leaves at least one required field unset, the loader fails with
`MissingParameter` naming exactly the first unset field in the fixed order
`client_id`, `client_secret`, `tenant_id` — being a raise, that first
failure is the only one a caller sees. -/
theorem c6_first_missing_reported (appdata acc_name : PyStr)
    (fsys : List (PyStr × List PyStr)) (lines : List PyStr) (params : Params)
    (hfile : fsys.lookup (cred_path appdata acc_name) = some lines)
    (hscan : scanLoop ⟨none, none, none, ⟨acc_name⟩⟩ none lines = .ok params)
    (hmiss : params.client_id = none ∨ params.client_secret = none ∨
      params.tenant_id = none) :
    _get_credentials appdata acc_name fsys =
      .error (.missingParameter (firstMissing params)) := by
  simp only [_get_credentials, hfile, hscan]
  obtain ⟨cid, csec, tid, idt⟩ := params
  cases cid <;> cases csec <;> cases tid <;>
    simp_all [checkParams, firstMissing]

/-- Concrete instantiation of `c6_first_missing_reported`: a file setting
only `Client ID` fails naming `client_secret`, the first unset field in
order. -/
theorem c6_first_missing_reported_witness :
    [((cred_path (str "APP") (str "acc")), [(str "Client ID: a")])].lookup
      (cred_path (str "APP") (str "acc")) = some [(str "Client ID: a")] ∧
    scanLoop ⟨none, none, none, ⟨(str "acc")⟩⟩ none [(str "Client ID: a")] =
      .ok ⟨some (str "a"), none, none, ⟨(str "acc")⟩⟩ ∧
    _get_credentials (str "APP") (str "acc")
      [((cred_path (str "APP") (str "acc")), [(str "Client ID: a")])] =
      .error (.missingParameter (str "client_secret")) :=
  ⟨by decide, by decide,
    c6_first_missing_reported (str "APP") (str "acc")
      [((cred_path (str "APP") (str "acc")), [(str "Client ID: a")])]
      [(str "Client ID: a")] ⟨some (str "a"), none, none, ⟨(str "acc")⟩⟩
      (by decide) (by decide) (Or.inr (Or.inl rfl))⟩

/-- `setParam` never touches the identity slot. -/
theorem setParam_identity (params : Params) (k v : PyStr) :
    (setParam params k v).identity = params.identity := by
  unfold setParam
  split
  · rfl
  split
  · rfl
  split
  · rfl
  · rfl

/-- One loop iteration never touches the identity slot. -/
theorem processLine_identity (params : Params) (key : Option PyStr)
    (line : PyStr) (params' : Params) (key' : Option PyStr)
    (h : processLine params key line = .ok (params', key')) :
    params'.identity = params.identity := by
  by_cases hc : containsChar line (':') = true
  · cases hk : updateKey (lineLabel line) key with
    | none => simp [processLine, hc, hk] at h
    | some k =>
      simp [processLine, hc, hk] at h
      obtain ⟨h1, h2⟩ := h
      subst h1
      apply setParam_identity
  · simp [processLine, hc] at h
    obtain ⟨h1, h2⟩ := h
    subst h1
    rfl

/-- The whole scan never touches the identity slot. -/
theorem scanLoop_identity (lines : List PyStr) :
    ∀ (params : Params) (key : Option PyStr) (params' : Params),
      scanLoop params key lines = .ok params' →
      params'.identity = params.identity := by
  induction lines with
  | nil =>
    intro p k p' h
    simp only [scanLoop, Except.ok.injEq] at h
    rw [← h]
  | cons line rest ih =>
    intro p k p' h
    simp only [scanLoop] at h
    cases hp : processLine p k line with
    | error e => rw [hp] at h; simp at h
    | ok pk =>
      rw [hp] at h
      obtain ⟨p1, k1⟩ := pk
      rw [ih p1 k1 p' h, processLine_identity p k line p1 k1 hp]

/-- The final validation passes the identity through unchanged. -/
theorem checkParams_identity (params : Params) (creds : OAuth2Credentials)
    (h : checkParams params = .ok creds) :
    creds.identity = params.identity := by
  obtain ⟨cid, csec, tid, idt⟩ := params
  cases cid with
  | none => simp [checkParams] at h
  | some a =>
    cases csec with
    | none => simp [checkParams] at h
    | some b =>
      cases tid with
      | none => simp [checkParams] at h
      | some c =>
        simp only [checkParams, Except.ok.injEq] at h
        rw [← h]

/-- Claim C9: a successful load returns the input account name exactly as
given as the identity (not lower-cased), even though the credentials file
is looked up under `cred_path`, which lower-cases the account name. -/
theorem c9_identity_case_preserved (appdata acc_name : PyStr)
    (fsys : List (PyStr × List PyStr)) (creds : OAuth2Credentials)
    (h : _get_credentials appdata acc_name fsys = .ok creds) :
    creds.identity = ⟨acc_name⟩ ∧
    (fsys.lookup (cred_path appdata acc_name)).isSome = true := by
  unfold _get_credentials at h
  split at h
  · simp at h
  next lines hl =>
    split at h
    · simp at h
    next params hs =>
      refine ⟨?_, by rw [hl]; rfl⟩
      rw [checkParams_identity params creds h,
        scanLoop_identity lines _ none params hs]

/-- Concrete instantiation of `c9_identity_case_preserved`: the mixed-case
account `Lbs.Robot` is looked up at the lower-cased path
`APP/bia/lbs.robot.token.email.dat`, yet the returned identity keeps the
original casing. -/
theorem c9_identity_case_preserved_witness :
    cred_path (str "APP") (str "Lbs.Robot") =
      str "APP/bia/lbs.robot.token.email.dat" ∧
    _get_credentials (str "APP") (str "Lbs.Robot")
      [((str "APP/bia/lbs.robot.token.email.dat"),
        [(str "Client ID: a"), (str "Client Secret: s"), (str "Tenant ID: t")])] =
      .ok ⟨(str "a"), (str "s"), (str "t"), ⟨(str "Lbs.Robot")⟩⟩ ∧
    (⟨(str "a"), (str "s"), (str "t"),
      ⟨(str "Lbs.Robot")⟩⟩ : OAuth2Credentials).identity = ⟨(str "Lbs.Robot")⟩ :=
  ⟨by decide, by decide,
    (c9_identity_case_preserved (str "APP") (str "Lbs.Robot")
      [((str "APP/bia/lbs.robot.token.email.dat"),
        [(str "Client ID: a"), (str "Client Secret: s"), (str "Tenant ID: t")])]
      ⟨(str "a"), (str "s"), (str "t"), ⟨(str "Lbs.Robot")⟩⟩ (by decide)).1⟩

/-- Writing one path leaves every other path's content alone. -/
theorem lookup_writeFile_ne (p q : PyStr) (c : List Nat) (fs : FileSystem)
    (h : p ≠ q) :
    (writeFile q c fs).files.lookup p = fs.files.lookup p := by
  have hb : (p == q) = false := beq_eq_false_iff_ne.mpr h
  simp [writeFile, List.lookup, hb]

/-- The post-write existence re-check always passes in this model. -/
theorem isfile_writeFile_self (p : PyStr) (c : List Nat) (fs : FileSystem) :
    isfile p (writeFile p c fs) = true := by
  simp [isfile, writeFile, List.lookup]

/-- With `overwrite = false`, a path that already has a file keeps its
content through the whole attachment loop and is never appended to the
result list. -/
theorem saveLoop_no_overwrite_preserves (dst_folder : PyStr) (ext : Option PyStr)
    (p : PyStr) (atts : List Attachment) :
    ∀ (file_paths : List PyStr) (fs : FileSystem) (res : List PyStr × FileSystem),
      isfile p fs = true → p ∉ file_paths →
      saveLoop dst_folder ext false file_paths fs atts = .ok res →
      p ∉ res.1 ∧ res.2.files.lookup p = fs.files.lookup p := by
  induction atts with
  | nil =>
    intro paths fs res hp hnp h
    simp only [saveLoop, Except.ok.injEq] at h
    rw [← h]
    exact ⟨hnp, rfl⟩
  | cons att rest ih =>
    intro paths fs res hp hnp h
    simp only [saveLoop] at h
    by_cases hext : extFilterPasses ext (joinPath dst_folder att.name) = true
    · by_cases hq : isfile (joinPath dst_folder att.name) fs = true
      · -- file exists and overwrite is off: skipped
        simp only [saveOne, hext, hq] at h
        simp at h
        exact ih paths fs res hp hnp h
      · -- file does not exist yet: written
        have hpq : p ≠ joinPath dst_folder att.name := by
          intro he
          rw [he] at hp
          exact hq hp
        have hw := isfile_writeFile_self (joinPath dst_folder att.name) att.content fs
        simp only [saveOne, hext, hq, hw] at h
        simp at h
        have hlk := lookup_writeFile_ne p (joinPath dst_folder att.name) att.content fs hpq
        have hp' : isfile p (writeFile (joinPath dst_folder att.name) att.content fs) = true := by
          simpa [isfile, hlk] using hp
        have hnp' : p ∉ paths ++ [joinPath dst_folder att.name] := by
          simp [hnp, hpq]
        obtain ⟨h1, h2⟩ := ih _ _ res hp' hnp' h
        exact ⟨h1, by rw [h2, hlk]⟩
    · -- extension filter skips the attachment
      simp only [saveOne, hext] at h
      simp at h
      exact ih paths fs res hp hnp h

/-- Claim C7: for an attachment whose candidate path already holds a file:
with `overwrite = false` the whole run leaves that file's content
untouched and its path out of the returned list, raising nothing; with
`overwrite = true` the loop body replaces the file with exactly the
attachment's bytes and appends the path to the result list. -/
theorem c7_overwrite_policy (msg : Message) (dst_folder : PyStr)
    (ext : Option PyStr) (fs : FileSystem) (att : Attachment)
    (p : PyStr) (file_paths : List PyStr) (res : List PyStr × FileSystem)
    (hp : isfile p fs = true)
    (hrun : download_attachments msg dst_folder ext false fs = .ok res)
    (hmatch : extFilterPasses ext (joinPath dst_folder att.name) = true)
    (hatt : isfile (joinPath dst_folder att.name) fs = true) :
    (p ∉ res.1 ∧ res.2.files.lookup p = fs.files.lookup p) ∧
    saveOne dst_folder ext true file_paths fs att =
      .ok (file_paths ++ [joinPath dst_folder att.name],
        writeFile (joinPath dst_folder att.name) att.content fs) ∧
    (writeFile (joinPath dst_folder att.name) att.content fs).files.lookup
      (joinPath dst_folder att.name) = some att.content := by
  refine ⟨?_, ?_, ?_⟩
  · unfold download_attachments at hrun
    split at hrun
    · simp at hrun
    · exact saveLoop_no_overwrite_preserves dst_folder ext p msg.attachments
        ([]) fs res hp (by simp) hrun
  · have hw := isfile_writeFile_self (joinPath dst_folder att.name) att.content fs
    simp [saveOne, hmatch, hatt, hw]
  · simp [writeFile, List.lookup]

/-- Concrete instantiation of `c7_overwrite_policy`: `d/a.pdf` already
holds bytes `[9]`; the `overwrite = false` run returns no paths and leaves
`[9]` in place, while the `overwrite = true` step writes the attachment's
`[2]` and reports the path. -/
theorem c7_overwrite_policy_witness :
    isfile (str "d/a.pdf") ⟨[(str "d")], [((str "d/a.pdf"), [9])]⟩ = true ∧
    download_attachments ⟨(str "s"), (str "x"), (str "m"), [⟨(str "a.pdf"), [2]⟩], 0⟩
        (str "d") none false ⟨[(str "d")], [((str "d/a.pdf"), [9])]⟩ =
      .ok ([], ⟨[(str "d")], [((str "d/a.pdf"), [9])]⟩) ∧
    (((str "d/a.pdf")) ∉ ([] : List PyStr) ∧
      (⟨[(str "d")], [((str "d/a.pdf"), [9])]⟩ : FileSystem).files.lookup (str "d/a.pdf") =
        (⟨[(str "d")], [((str "d/a.pdf"), [9])]⟩ : FileSystem).files.lookup (str "d/a.pdf")) ∧
    saveOne (str "d") none true ([]) ⟨[(str "d")], [((str "d/a.pdf"), [9])]⟩
        ⟨(str "a.pdf"), [2]⟩ =
      .ok ([(str "d/a.pdf")],
        writeFile (str "d/a.pdf") [2] ⟨[(str "d")], [((str "d/a.pdf"), [9])]⟩) ∧
    (writeFile (str "d/a.pdf") [2]
      ⟨[(str "d")], [((str "d/a.pdf"), [9])]⟩).files.lookup (str "d/a.pdf") =
      some [2] :=
  ⟨by decide, by decide,
    (c7_overwrite_policy ⟨(str "s"), (str "x"), (str "m"), [⟨(str "a.pdf"), [2]⟩], 0⟩
      (str "d") none ⟨[(str "d")], [((str "d/a.pdf"), [9])]⟩ ⟨(str "a.pdf"), [2]⟩
      (str "d/a.pdf") ([]) ([], ⟨[(str "d")], [((str "d/a.pdf"), [9])]⟩)
      (by decide) (by decide) (by decide) (by decide)).1,
    (c7_overwrite_policy ⟨(str "s"), (str "x"), (str "m"), [⟨(str "a.pdf"), [2]⟩], 0⟩
      (str "d") none ⟨[(str "d")], [((str "d/a.pdf"), [9])]⟩ ⟨(str "a.pdf"), [2]⟩
      (str "d/a.pdf") ([]) ([], ⟨[(str "d")], [((str "d/a.pdf"), [9])]⟩)
      (by decide) (by decide) (by decide) (by decide)).2.1,
    (c7_overwrite_policy ⟨(str "s"), (str "x"), (str "m"), [⟨(str "a.pdf"), [2]⟩], 0⟩
      (str "d") none ⟨[(str "d")], [((str "d/a.pdf"), [9])]⟩ ⟨(str "a.pdf"), [2]⟩
      (str "d/a.pdf") ([]) ([], ⟨[(str "d")], [((str "d/a.pdf"), [9])]⟩)
      (by decide) (by decide) (by decide) (by decide)).2.2⟩

/-- The labels the `if`/`elif` chain recognizes. -/
def recognizedLabel (label : PyStr) : Bool :=
  label == str "Client ID" || label == str "Client Secret" || label == str "Tenant ID"

/-- Statement-side: the (trimmed) value of the last line bearing the given
label, folded left over the file in the same direction as the scan;
`acc` is the value carried in from before these lines. -/
def lastLabelValue (label : PyStr) (acc : Option PyStr) :
    List PyStr → Option PyStr
  | [] => acc
  | line :: rest =>
    lastLabelValue label
      (if containsChar line (':') && (lineLabel line == label)
       then some (lineValue line) else acc) rest

/-- On a file whose colon lines all bear recognized labels, the scan
completes and each slot holds the value of the last line for its label. -/
theorem scanLoop_recognized (lines : List PyStr) :
    ∀ (params : Params) (key : Option PyStr),
      (∀ line ∈ lines, containsChar line (':') = true →
        recognizedLabel (lineLabel line) = true) →
      scanLoop params key lines =
        .ok ⟨lastLabelValue (str "Client ID") params.client_id lines,
             lastLabelValue (str "Client Secret") params.client_secret lines,
             lastLabelValue (str "Tenant ID") params.tenant_id lines,
             params.identity⟩ := by
  induction lines with
  | nil => intro p k h; rfl
  | cons line rest ih =>
    intro p k h
    have h' : ∀ l ∈ rest, containsChar l (':') = true →
        recognizedLabel (lineLabel l) = true := by
      intro l hl hcl
      exact h l (List.mem_cons_of_mem _ hl) hcl
    by_cases hc : containsChar line (':') = true
    · have hrec := h line (by simp) hc
      simp only [recognizedLabel, Bool.or_eq_true, beq_iff_eq] at hrec
      rcases hrec with (hlab | hlab) | hlab
      · have hstep : processLine p k line =
            .ok ({ p with client_id := some (lineValue line) }, some (str "client_id")) := by
          simp [processLine, hc, updateKey, hlab, setParam]
        have hrest := ih { p with client_id := some (lineValue line) }
          (some (str "client_id")) h'
        simp only [scanLoop, hstep]
        rw [hrest]
        simp [lastLabelValue, hc, hlab,
          (show (str "Client ID" == str "Client Secret") = false by decide),
          (show (str "Client ID" == str "Tenant ID") = false by decide)]
      · have hstep : processLine p k line =
            .ok ({ p with client_secret := some (lineValue line) }, some (str "client_secret")) := by
          simp [processLine, hc, updateKey, hlab, setParam,
            (show ¬ (str "Client Secret" = str "Client ID") by decide),
            (show ¬ (str "client_secret" = str "client_id") by decide)]
        have hrest := ih { p with client_secret := some (lineValue line) }
          (some (str "client_secret")) h'
        simp only [scanLoop, hstep]
        rw [hrest]
        simp [lastLabelValue, hc, hlab,
          (show (str "Client Secret" == str "Client ID") = false by decide),
          (show (str "Client Secret" == str "Tenant ID") = false by decide)]
      · have hstep : processLine p k line =
            .ok ({ p with tenant_id := some (lineValue line) }, some (str "tenant_id")) := by
          simp [processLine, hc, updateKey, hlab, setParam,
            (show ¬ (str "Tenant ID" = str "Client ID") by decide),
            (show ¬ (str "Tenant ID" = str "Client Secret") by decide),
            (show ¬ (str "tenant_id" = str "client_id") by decide),
            (show ¬ (str "tenant_id" = str "client_secret") by decide)]
        have hrest := ih { p with tenant_id := some (lineValue line) }
          (some (str "tenant_id")) h'
        simp only [scanLoop, hstep]
        rw [hrest]
        simp [lastLabelValue, hc, hlab,
          (show (str "Tenant ID" == str "Client ID") = false by decide),
          (show (str "Tenant ID" == str "Client Secret") = false by decide)]
    · have hstep : processLine p k line = .ok (p, k) := by
        simp [processLine, hc]
      have hrest := ih p k h'
      simp only [scanLoop, hstep]
      rw [hrest]
      simp [lastLabelValue, hc]

/-- Claim C10, counterexample: with unrecognized labels present, the last
`Client ID` line does not win — the stale `key` makes the later `Foo: x`
line overwrite `client_id`, so the loader returns `x`, not `b`. -/
theorem c10_counterexample :
    _get_credentials (str "APP") (str "acc")
      [((cred_path (str "APP") (str "acc")),
        [(str "Client ID: a"), (str "Client ID: b"), (str "Foo: x"),
         (str "Client Secret: s"), (str "Tenant ID: t")])] =
      .ok ⟨(str "x"), (str "s"), (str "t"), ⟨(str "acc")⟩⟩ ∧
    (str "x") ≠ (str "b") := by decide

/-- Claim C10 (amended): in a credentials file whose colon-containing
lines all bear recognized labels, each credential field ends up holding
the value of the last line bearing its label — last occurrence wins,
earlier values are overwritten, not rejected and not preferred.  (With an
unrecognized label after a duplicate this fails — see the
counterexample.) -/
theorem c10_last_occurrence_wins (acc_name : PyStr) (lines : List PyStr)
    (h : ∀ line ∈ lines, containsChar line (':') = true →
      recognizedLabel (lineLabel line) = true) :
    scanLoop ⟨none, none, none, ⟨acc_name⟩⟩ none lines =
      .ok ⟨lastLabelValue (str "Client ID") none lines,
           lastLabelValue (str "Client Secret") none lines,
           lastLabelValue (str "Tenant ID") none lines, ⟨acc_name⟩⟩ :=
  scanLoop_recognized lines ⟨none, none, none, ⟨acc_name⟩⟩ none h

/-- Concrete instantiation of `c10_last_occurrence_wins`: with two
`Client ID` lines and no unrecognized label, the later value `b` wins. -/
theorem c10_last_occurrence_wins_witness :
    ([(str "Client ID: a"), (str "Client ID: b"),
      (str "Client Secret: s"), (str "Tenant ID: t")].all
      (fun line => !(containsChar line (':')) || recognizedLabel (lineLabel line))) = true ∧
    scanLoop ⟨none, none, none, ⟨(str "acc")⟩⟩ none
      [(str "Client ID: a"), (str "Client ID: b"),
       (str "Client Secret: s"), (str "Tenant ID: t")] =
      .ok ⟨lastLabelValue (str "Client ID") none
            [(str "Client ID: a"), (str "Client ID: b"),
             (str "Client Secret: s"), (str "Tenant ID: t")],
           lastLabelValue (str "Client Secret") none
            [(str "Client ID: a"), (str "Client ID: b"),
             (str "Client Secret: s"), (str "Tenant ID: t")],
           lastLabelValue (str "Tenant ID") none
            [(str "Client ID: a"), (str "Client ID: b"),
             (str "Client Secret: s"), (str "Tenant ID: t")], ⟨(str "acc")⟩⟩ ∧
    lastLabelValue (str "Client ID") none
      [(str "Client ID: a"), (str "Client ID: b"),
       (str "Client Secret: s"), (str "Tenant ID: t")] = some (str "b") :=
  ⟨by decide,
    c10_last_occurrence_wins (str "acc")
      [(str "Client ID: a"), (str "Client ID: b"),
       (str "Client Secret: s"), (str "Tenant ID: t")]
      (by decide),
    by decide⟩

end Mails
